import Mathlib

/-!
Shallow embedding of the Automation-Framework repository, covering:

* `SecureCredentialManager` from `Suites/Linkdin/chatgpt_login.py`
  (save / load / clear of an encrypted credential record);
* `ChatGPTLogin.get_credentials` from the same file;
* the Youtube pipeline stage functions (`script_gen.py`, `voice_gen.py`,
  `animation_gen.py`, `video_edit.py`) and the five-step `pipeline.py`;
* the FastAPI endpoints of `api_server.py` together with its
  `HTTPException` / generic exception handlers.

Machine-level effects are made explicit: the outcome of each file-system or
network operation is an input (an environment record or an oracle function),
Python exceptions are `Except` errors, and the serialization stack
(JSON / Fernet / base64, all library calls) is modelled as a free algebra of
wire blobs so that each library call is one constructor application and each
inverse is the matching partial destructor.
-/

/-- The credential record built by `save_credentials`
(`{'email': …, 'password': …, 'timestamp': time.time()}`).
`time.time()` is modelled as an abstract `Nat` tick. -/
structure Credentials where
  email : String
  password : String
  timestamp : Nat
deriving DecidableEq, Repr

/-- Wire data produced by the serialization stack in `chatgpt_login.py`:
`json.dumps` on the record, `Fernet(key).encrypt` on the JSON text,
`base64.b64encode` on the ciphertext.  Each library call is one constructor;
the Fernet key is an abstract `Nat`. -/
inductive Blob where
  | json (c : Credentials)
  | enc (key : Nat) (b : Blob)
  | b64 (b : Blob)
deriving DecidableEq, Repr

/-- `json.dumps(credentials)` (library call, modelled as tagging). -/
def jsonDumps (c : Credentials) : Blob := Blob.json c

/-- `json.loads(...)`: succeeds exactly on JSON text of a credential record;
anything else raises, modelled as `none`. -/
def jsonLoads : Blob → Option Credentials
  | Blob.json c => some c
  | _ => none

/-- `self.cipher_suite.encrypt(...)` with the manager's Fernet key. -/
def fernetEncrypt (key : Nat) (b : Blob) : Blob := Blob.enc key b

/-- `self.cipher_suite.decrypt(...)`: Fernet is authenticated, so decryption
succeeds only on data encrypted under the same key; otherwise it raises
(`none`). -/
def fernetDecrypt (key : Nat) : Blob → Option Blob
  | Blob.enc k b => if k = key then some b else none
  | _ => none

/-- `base64.b64encode(...)`. -/
def b64encode (b : Blob) : Blob := Blob.b64 b

/-- `base64.b64decode(...)`: inverts `b64encode`, raises (`none`) on
non-base64 data. -/
def b64decode : Blob → Option Blob
  | Blob.b64 b => some b
  | _ => none

/-- `SecureCredentialManager._encrypt_credentials`:
`json.dumps`, then `cipher_suite.encrypt`, then `base64.b64encode`. -/
def encrypt_credentials (key : Nat) (c : Credentials) : Blob :=
  b64encode (fernetEncrypt key (jsonDumps c))

/-- `SecureCredentialManager._decrypt_credentials`:
`base64.b64decode`, then `cipher_suite.decrypt`, then `json.loads`;
a failure at any step raises, propagated here as `none`. -/
def decrypt_credentials (key : Nat) (b : Blob) : Option Credentials :=
  (b64decode b).bind (fun cb => (fernetDecrypt key cb).bind jsonLoads)

/-- State of the working directory as far as the manager sees it:
the contents of `.chatgpt_credentials` (`none` = file absent). -/
structure CredState where
  credFile : Option Blob
deriving DecidableEq, Repr

/-- Outcome of the file-system operations attempted by the manager.  Each
flag says whether the corresponding OS call succeeds; a `false` flag is the
`Exception` branch of the matching `try`. -/
structure IOEnv where
  writeOk : Bool
  readOk : Bool
  unlinkOk : Bool
deriving DecidableEq, Repr

/-- `SecureCredentialManager.save_credentials`: builds the record, encrypts
it, writes the blob (overwriting the file); any raised exception is caught
and turned into `False`, success returns `True`. -/
def save_credentials (key : Nat) (env : IOEnv) (email password : String)
    (ts : Nat) (s : CredState) : Bool × CredState :=
  if env.writeOk then
    (true, { credFile := some (encrypt_credentials key ⟨email, password, ts⟩) })
  else
    (false, s)

/-- `SecureCredentialManager.load_credentials`: returns `None` when the file
does not exist; otherwise reads and decrypts, and any exception (read failure
or decryption failure) is caught and turned into `None`. -/
def load_credentials (key : Nat) (env : IOEnv) (s : CredState) :
    Option Credentials :=
  match s.credFile with
  | none => none
  | some b => if env.readOk then decrypt_credentials key b else none

/-- `SecureCredentialManager.clear_credentials`: unlinks the file when it
exists; an unlink failure is caught and turned into `False`; returns `True`
otherwise (also when no file existed). -/
def clear_credentials (env : IOEnv) (s : CredState) : Bool × CredState :=
  match s.credFile with
  | some _ => if env.unlinkOk then (true, { credFile := none }) else (false, s)
  | none => (true, s)

/-- Python truthiness of an `os.getenv` result: `None` and `""` are falsy. -/
def pyTruthy : Option String → Bool
  | none => false
  | some s => s ≠ ""

/-- Python `str.strip()`: drop whitespace from both ends. -/
def pyStrip (s : String) : String :=
  String.mk (((s.data.dropWhile Char.isWhitespace).reverse.dropWhile
    Char.isWhitespace).reverse)

/-- Python `str.lower()`, character-wise. -/
def pyLower (s : String) : String := String.mk (s.data.map Char.toLower)

/-- `ChatGPTLogin.get_credentials`.  Priority: environment variables, then
the encrypted store, then interactive input (modelled by `userEmail`,
`userPassword`, `saveChoice`); returns the chosen pair together with the
resulting credential-file state. -/
def get_credentials (key : Nat) (env : IOEnv)
    (envEmail envPassword : Option String) (s : CredState)
    (userEmail userPassword saveChoice : String) (ts : Nat) :
    (String × String) × CredState :=
  if pyTruthy envEmail && pyTruthy envPassword then
    ((envEmail.getD "", envPassword.getD ""), s)
  else
    match load_credentials key env s with
    | some c => ((c.email, c.password), s)
    | none =>
        let e := pyStrip userEmail
        let p := pyStrip userPassword
        if pyLower (pyStrip saveChoice) = "y" ∨ pyLower (pyStrip saveChoice) = "yes" then
          ((e, p), (save_credentials key env e p ts s).2)
        else
          ((e, p), s)

/-!
## The five-step pipeline (`pipeline.py`)

`main` is a straight-line sequence of five stage calls.  Artifacts are
modelled with provenance so the dataflow of `main` is visible; a
`StageCall` records a call's name, the artifact arguments it received and
the artifact it produced (`none` for the upload, which returns no file).
-/

/-- A pipeline file artifact, tagged with how it was produced. -/
inductive Artifact where
  | scriptFile (theme : String)
  | audioFile (src : Artifact)
  | animVideo (src : Artifact)
  | finalVideo (video audio : Artifact)
deriving DecidableEq, Repr

/-- `script_gen.run(theme=…)` as a dataflow step. -/
def script_gen_run (theme : String) : Artifact := Artifact.scriptFile theme

/-- `voice_gen.run(script_file)` as a dataflow step. -/
def voice_gen_run (s : Artifact) : Artifact := Artifact.audioFile s

/-- `animation_gen.run(script_file)` as a dataflow step. -/
def animation_gen_run (s : Artifact) : Artifact := Artifact.animVideo s

/-- `video_edit.run(video_file, audio_file)` as a dataflow step. -/
def video_edit_run (v a : Artifact) : Artifact := Artifact.finalVideo v a

/-- One stage call of `pipeline.main`: name, artifact inputs, file output. -/
structure StageCall where
  name : String
  inputs : List Artifact
  output : Option Artifact
deriving DecidableEq, Repr

/-- The call sequence executed by `pipeline.main` (`pipeline.py` lines 4-8):
straight-line code, so the trace is the fixed list of its five calls with
the dataflow of its local variables. -/
def pipeline_main : List StageCall :=
  let script_file := script_gen_run "motivation"
  let audio_file := voice_gen_run script_file
  let video_file := animation_gen_run script_file
  let final_video := video_edit_run video_file audio_file
  [ ⟨"script_gen.run", [], some script_file⟩,
    ⟨"voice_gen.run", [script_file], some audio_file⟩,
    ⟨"animation_gen.run", [script_file], some video_file⟩,
    ⟨"video_edit.run", [video_file, audio_file], some final_video⟩,
    ⟨"upload_youtube.run", [final_video], none⟩ ]

/-- The property asserted by C6 about the trace: each stage's output is
consumed by the immediately following stage. -/
def consumedByNextStage (tr : List StageCall) : Prop :=
  ∀ i : Fin tr.length, ∀ h : i.val + 1 < tr.length,
    ∀ o, (tr.get i).output = some o → o ∈ (tr.get ⟨i.val + 1, h⟩).inputs

instance (tr : List StageCall) : Decidable (consumedByNextStage tr) := by
  unfold consumedByNextStage
  infer_instance

/-- Weakened consumption: each stage's output is consumed by some later
stage. -/
def consumedByLaterStage (tr : List StageCall) : Prop :=
  ∀ i : Fin tr.length, ∀ o, (tr.get i).output = some o →
    i.val + 1 = tr.length ∨
    ∃ j : Fin tr.length, i.val < j.val ∧ o ∈ (tr.get j).inputs

instance (tr : List StageCall) : Decidable (consumedByLaterStage tr) := by
  unfold consumedByLaterStage
  infer_instance

/-!
## The poll loop of `video_edit.create_video`

`create_video` polls `https://api.pika.art/v1/video.get` while
`attempts < max_attempts` (`max_attempts = 60`), sleeping 5 seconds between
attempts.  The response to the `i`-th status request is an oracle input.
-/

/-- One HTTP status response in the poll loop: `ok` is `response.ok`,
`text` is `response.text`, `status` is `status_data.get("status")` and
`video` is `status_data.get("video")`. -/
structure PollResponse where
  ok : Bool
  text : String
  status : Option String
  video : Option String

/-- `time.sleep(5)` interval of the poll loop, in seconds. -/
def pollIntervalSeconds : Nat := 5

/-- `max_attempts = 60` of the poll loop. -/
def pollMaxAttempts : Nat := 60

/-- The `while attempts < max_attempts` loop of `create_video`, recursing on
the remaining attempt budget.  Returns the loop outcome (`.ok (some url)`
when the video completed with a URL, `.ok none` when the budget ran out,
`.error` when the loop raised) together with the number of status requests
made. -/
def pollFrom (resp : Nat → PollResponse) (attempts : Nat) :
    Nat → Except String (Option String) × Nat
  | 0 => (Except.ok none, 0)
  | remaining + 1 =>
      let s := resp attempts
      if s.ok = false then
        (Except.error ("Failed to check video status: " ++ s.text), 1)
      else if s.status = some "completed" then
        match s.video with
        | some url => (Except.ok (some url), 1)
        | none => (Except.error "Video completed but no URL provided", 1)
      else if s.status = some "failed" then
        (Except.error "Video generation failed", 1)
      else
        let r := pollFrom resp (attempts + 1) remaining
        (r.1, r.2 + 1)

/-- The poll phase of `create_video`: run the loop from `attempts = 0` with
budget `max_attempts`; if the loop ends with no `video_url`, raise
`"Video generation timed out"`; every exception is re-raised by the
enclosing `except` as `"Failed to create video: " + str(e)`. -/
def create_video_poll (resp : Nat → PollResponse) :
    Except String String × Nat :=
  let r := pollFrom resp 0 pollMaxAttempts
  match r.1 with
  | Except.ok (some url) => (Except.ok url, r.2)
  | Except.ok none =>
      (Except.error "Failed to create video: Video generation timed out", r.2)
  | Except.error m => (Except.error ("Failed to create video: " ++ m), r.2)

/-!
## Stage functions of the Youtube suite

Each stage wraps its external call in a `try`/`except` whose handler
re-raises a new `Exception` with a prefixed message (`script_gen.py`,
`voice_gen.py`, `video_edit.py`); `animation_gen.py` instead returns `None`
on `TaskFailedError`.  A Lean `Except.error` is a Python exception
propagating out of the function.
-/

/-- Environment of `script_gen.generate_script`: the configured
`OPENAI_API_KEY`, whether the `openai` import succeeded, the outcome of the
work inside the `try` block (the chat-completion call and the file write;
`Except.error` carries `str(e)` of the exception it raised), and the
`datetime.now()` timestamp used in the filename. -/
structure ScriptGenEnv where
  apiKey : String
  libAvailable : Bool
  callResult : Except String String
  timestamp : String

/-- The `safe_topic` computation of `script_gen.generate_script`: keep only
alphanumerics, spaces, `-` and `_`; `rstrip()`; replace spaces by `_`; keep
the first 30 characters. -/
def safe_topic (topic : String) : String :=
  let filtered := (topic.data.filter
    (fun c => c.isAlphanum || c = ' ' || c = '-' || c = '_'))
  let stripped := (filtered.reverse.dropWhile (fun c => c.isWhitespace)).reverse
  String.mk ((stripped.map (fun c => if c = ' ' then '_' else c)).take 30)

/-- The filename `f"script_{safe_topic}_{length}_{timestamp}.txt"`. -/
def script_filename (topic length timestamp : String) : String :=
  "script_" ++ safe_topic topic ++ "_" ++ length ++ "_" ++ timestamp ++ ".txt"

/-- `script_gen.generate_script`: raises `ValueError` without an API key and
`ImportError` without the library; any exception inside the `try` is caught
and re-raised as `Exception("Failed to generate script: " + str(e))`;
success returns the path of the written script file. -/
def generate_script (env : ScriptGenEnv) (topic length style : String) :
    Except String String :=
  if env.apiKey = "" then
    Except.error "OpenAI API key not found. Please set OPENAI_API_KEY in config.py or environment variables."
  else if env.libAvailable = false then
    Except.error "OpenAI library not installed. Please install it with: pip install openai"
  else
    match env.callResult with
    | Except.error msg => Except.error ("Failed to generate script: " ++ msg)
    | Except.ok _ => Except.ok (script_filename topic length env.timestamp)

/-- Environment of `voice_gen.generate_voice`, analogous to
`ScriptGenEnv`. -/
structure VoiceGenEnv where
  apiKey : String
  libAvailable : Bool
  callResult : Except String String
  timestamp : String

/-- The `safe_text` computation of `voice_gen.generate_voice`: from the
first 30 characters keep alphanumerics, spaces, `-` and `_`; `rstrip()`;
replace spaces by `_`; keep the first 20 characters. -/
def safe_text (text : String) : String :=
  let filtered := ((text.data.take 30).filter
    (fun c => c.isAlphanum || c = ' ' || c = '-' || c = '_'))
  let stripped := (filtered.reverse.dropWhile (fun c => c.isWhitespace)).reverse
  String.mk ((stripped.map (fun c => if c = ' ' then '_' else c)).take 20)

/-- The filename `f"voice_{safe_text}_{voice_type}_{timestamp}.mp3"`. -/
def voice_filename (text voiceType timestamp : String) : String :=
  "voice_" ++ safe_text text ++ "_" ++ voiceType ++ "_" ++ timestamp ++ ".mp3"

/-- `voice_gen.generate_voice`: same structure as `generate_script`, with
the ElevenLabs call inside the `try` and the handler re-raising
`Exception("Failed to generate voice: " + str(e))`. -/
def generate_voice (env : VoiceGenEnv) (text voiceType speed : String) :
    Except String String :=
  if env.apiKey = "" then
    Except.error "ElevenLabs API key not found. Please set ELEVENLABS_API_KEY in config.py or environment variables."
  else if env.libAvailable = false then
    Except.error "ElevenLabs library not installed. Please install it with: pip install elevenlabs"
  else
    match env.callResult with
    | Except.error msg => Except.error ("Failed to generate voice: " ++ msg)
    | Except.ok _ => Except.ok (voice_filename text voiceType env.timestamp)

/-- Outcome of the RunwayML calls in `animation_gen.run`: the task
completed with a first output URL; `wait_for_task_output` raised
`TaskFailedError`; or some call raised any other exception (the
`image_to_video.create` call is outside the `try`, and the `except` clause
only names `TaskFailedError`). -/
inductive AnimOutcome where
  | ok (url : String)
  | taskFailed (details : String)
  | otherExn (msg : String)

/-- `animation_gen.run`: returns the output URL, converts `TaskFailedError`
into a printed message and `None`, and lets every other exception
propagate. -/
def animation_run : AnimOutcome → Except String (Option String)
  | AnimOutcome.ok url => Except.ok (some url)
  | AnimOutcome.taskFailed _ => Except.ok none
  | AnimOutcome.otherExn msg => Except.error msg

/-!
## The FastAPI server (`api_server.py`)

Handlers run their body inside `try`/`except Exception`, whose handler
re-raises `HTTPException(500, "Failed to …: " + str(e))`.  The app-level
exception handlers then render the error as JSON: `http_exception_handler`
produces `{status, message, timestamp}` with the exception's status code,
`general_exception_handler` produces
`{status, message, detail, timestamp}` with code 500.  A successful handler
returns an `APIResponse {status, message, data}` rendered with code 200.
-/

/-- A Python exception as seen by the handlers: FastAPI's `HTTPException`
(status code and detail) or any other exception with its message.
`str(e)` of an `HTTPException` is `f"{status_code}: {detail}"`. -/
inductive PyExn where
  | httpExc (statusCode : Nat) (detail : String)
  | exn (msg : String)
deriving DecidableEq, Repr

/-- Python `str(e)` on the exceptions above. -/
def strExn : PyExn → String
  | PyExn.httpExc c d => toString c ++ ": " ++ d
  | PyExn.exn m => m

/-- The `APIResponse` pydantic model: `status`, `message` and an optional
`data` dict (here: string-valued fields). -/
structure APIResponse where
  status : String
  message : String
  data : Option (List (String × String))
deriving DecidableEq, Repr

/-- JSON values as rendered to the client. -/
inductive JsonVal where
  | null
  | str (s : String)
  | obj (fields : List (String × JsonVal))

/-- The top-level field names of a JSON object (the envelope shape). -/
def jsonFieldNames : JsonVal → List String
  | JsonVal.obj fs => fs.map Prod.fst
  | _ => []

/-- An HTTP response: status code plus JSON body. -/
structure HttpResponse where
  statusCode : Nat
  content : JsonVal

/-- Serialization of an `APIResponse` (`response_model=APIResponse`): all
three declared fields appear, `data` as `null` when absent. -/
def renderAPIResponse (r : APIResponse) : JsonVal :=
  JsonVal.obj
    [("status", JsonVal.str r.status),
     ("message", JsonVal.str r.message),
     ("data",
       match r.data with
       | none => JsonVal.null
       | some fs => JsonVal.obj (fs.map (fun p => (p.1, JsonVal.str p.2))))]

/-- The `@app.exception_handler(HTTPException)` handler: body
`{"status": "error", "message": detail, "timestamp": …}` with the
exception's status code. -/
def http_exception_handler (ts : String) (statusCode : Nat) (detail : String) :
    HttpResponse :=
  ⟨statusCode,
    JsonVal.obj
      [("status", JsonVal.str "error"),
       ("message", JsonVal.str detail),
       ("timestamp", JsonVal.str ts)]⟩

/-- The `@app.exception_handler(Exception)` handler: code 500 with body
`{"status": "error", "message": "Internal server error", "detail": str(exc),
"timestamp": …}`. -/
def general_exception_handler (ts : String) (msg : String) : HttpResponse :=
  ⟨500,
    JsonVal.obj
      [("status", JsonVal.str "error"),
       ("message", JsonVal.str "Internal server error"),
       ("detail", JsonVal.str msg),
       ("timestamp", JsonVal.str ts)]⟩

/-- What the client receives for a handler outcome: a 200 with the
serialized `APIResponse`, or the rendering of the escaped exception by the
matching app-level handler. -/
def renderResult (ts : String) : Except PyExn APIResponse → HttpResponse
  | Except.ok r => ⟨200, renderAPIResponse r⟩
  | Except.error (PyExn.httpExc c d) => http_exception_handler ts c d
  | Except.error (PyExn.exn m) => general_exception_handler ts m

/-- The `ScriptRequest` pydantic model. -/
structure ScriptRequest where
  topic : String
  length : String
  style : String

/-- The `VoiceRequest` pydantic model. -/
structure VoiceRequest where
  text : String
  voice_type : String
  speed : String

/-- Body of `generate_script_endpoint` inside its `try`: empty-topic
validation raises `HTTPException(400)`, then the `script_gen` call runs
(`gen` is its outcome: the script filename, or the exception it raised), and
the script content is read back (`fileRead`; a read failure is downgraded to
a placeholder string by the inner `try`). -/
def generate_script_body (req : ScriptRequest) (gen : Except PyExn String)
    (fileRead : Except String String) : Except PyExn APIResponse :=
  if pyStrip req.topic = "" then
    Except.error (PyExn.httpExc 400 "Topic cannot be empty")
  else
    match gen with
    | Except.error e => Except.error e
    | Except.ok name =>
        let content :=
          match fileRead with
          | Except.ok c => c
          | Except.error m =>
              "Script generated but content could not be read: " ++ m
        Except.ok
          ⟨"success", "Script generated successfully",
            some [("script_path", "/output/" ++ name),
                  ("script_content", content),
                  ("filename", name)]⟩

/-- `generate_script_endpoint`: the body's exceptions (validation
`HTTPException` included, since `except Exception` catches it) are
re-raised as `HTTPException(500, "Failed to generate script: " + str(e))`. -/
def generate_script_endpoint (req : ScriptRequest) (gen : Except PyExn String)
    (fileRead : Except String String) : Except PyExn APIResponse :=
  match generate_script_body req gen fileRead with
  | Except.ok r => Except.ok r
  | Except.error e =>
      Except.error (PyExn.httpExc 500 ("Failed to generate script: " ++ strExn e))

/-- Body of `generate_voice_endpoint` inside its `try`: empty-text and
length validation raise `HTTPException(400)`, then the `voice_gen` call
runs. -/
def generate_voice_body (req : VoiceRequest) (gen : Except PyExn String) :
    Except PyExn APIResponse :=
  if pyStrip req.text = "" then
    Except.error (PyExn.httpExc 400 "Text cannot be empty")
  else if 5000 < req.text.length then
    Except.error (PyExn.httpExc 400 "Text too long (max 5000 characters)")
  else
    match gen with
    | Except.error e => Except.error e
    | Except.ok name =>
        Except.ok
          ⟨"success", "Voice generated successfully",
            some [("voice_path", "/output/" ++ name),
                  ("filename", name),
                  ("duration", "Unknown")]⟩

/-- `generate_voice_endpoint` with its catch-all re-raise. -/
def generate_voice_endpoint (req : VoiceRequest) (gen : Except PyExn String) :
    Except PyExn APIResponse :=
  match generate_voice_body req gen with
  | Except.ok r => Except.ok r
  | Except.error e =>
      Except.error (PyExn.httpExc 500 ("Failed to generate voice: " ++ strExn e))

/-- Dot-splitting of a filename's characters (`str.split` at each dot). -/
def splitOnDot : List Char → List (List Char)
  | [] => [[]]
  | c :: cs =>
      match splitOnDot cs with
      | [] => [[]]
      | p :: ps => if c = '.' then [] :: p :: ps else (c :: p) :: ps

/-- `Path(filename).suffix.lower()` for plain dotted filenames: the last
dot-separated extension with its dot, lower-cased; no suffix for names
without a dot or for a bare leading-dot name. -/
def pathSuffixLower (name : String) : String :=
  match splitOnDot name.data with
  | [] => ""
  | [_] => ""
  | [[], _] => ""
  | ps => pyLower ("." ++ String.mk (ps.getLastD []))

/-- The extension validation shared by `create_video_endpoint` and
`upload_script_endpoint`: empty filename raises
`HTTPException(400, "No file provided")`; a suffix outside
`['.txt', '.md']` raises the invalid-file-type `HTTPException(400)`. -/
def validateUploadFilename (filename : String) : Except PyExn Unit :=
  if filename = "" then
    Except.error (PyExn.httpExc 400 "No file provided")
  else if pathSuffixLower filename = ".txt" ∨ pathSuffixLower filename = ".md" then
    Except.ok ()
  else
    Except.error (PyExn.httpExc 400 "Invalid file type. Allowed: .txt, .md")

/-- Body of `create_video_endpoint` inside its `try`: filename validation,
upload save plus `video_edit.create_video` call (outcome `gen`: the video
filename or the raised exception), and the formatted size string of the
result (`sizeStr`, a float format this model keeps abstract). -/
def create_video_body (filename : String) (gen : Except PyExn String)
    (sizeStr : String) : Except PyExn APIResponse :=
  match validateUploadFilename filename with
  | Except.error e => Except.error e
  | Except.ok _ =>
      match gen with
      | Except.error e => Except.error e
      | Except.ok name =>
          Except.ok
            ⟨"success", "Video created successfully",
              some [("video_path", "/output/" ++ name),
                    ("filename", name),
                    ("size", sizeStr),
                    ("duration", "Unknown")]⟩

/-- `create_video_endpoint` with its catch-all re-raise. -/
def create_video_endpoint (filename : String) (gen : Except PyExn String)
    (sizeStr : String) : Except PyExn APIResponse :=
  match create_video_body filename gen sizeStr with
  | Except.ok r => Except.ok r
  | Except.error e =>
      Except.error (PyExn.httpExc 500 ("Failed to create video: " ++ strExn e))

/-- Body of `upload_script_endpoint` inside its `try`: filename validation,
then saving the upload (`saved`: the stored filename or the raised
exception). -/
def upload_script_body (filename : String) (saved : Except PyExn String) :
    Except PyExn APIResponse :=
  match validateUploadFilename filename with
  | Except.error e => Except.error e
  | Except.ok _ =>
      match saved with
      | Except.error e => Except.error e
      | Except.ok name =>
          Except.ok
            ⟨"success", "Script uploaded successfully",
              some [("script_path", "/output/" ++ name),
                    ("filename", name)]⟩

/-- `upload_script_endpoint` with its catch-all re-raise. -/
def upload_script_endpoint (filename : String) (saved : Except PyExn String) :
    Except PyExn APIResponse :=
  match upload_script_body filename saved with
  | Except.ok r => Except.ok r
  | Except.error e =>
      Except.error (PyExn.httpExc 500 ("Failed to upload script: " ++ strExn e))

/-- A concrete text one character over the 5000-character voice limit. -/
def longText : String := String.mk (List.replicate 5001 'a')

/-- Decryption inverts encryption under the same key (helper). -/
theorem decrypt_encrypt (key : Nat) (c : Credentials) :
    decrypt_credentials key (encrypt_credentials key c) = some c := by
  simp [decrypt_credentials, encrypt_credentials, b64decode, b64encode,
    fernetDecrypt, fernetEncrypt, jsonLoads, jsonDumps]

/-- C1: when the write and the subsequent read succeed, `save_credentials`
followed by `load_credentials` (same key, no intervening writes) returns a
record whose `email` and `password` fields are the originals. -/
theorem save_load_roundtrip (key : Nat) (env : IOEnv)
    (email password : String) (ts : Nat) (s : CredState)
    (hw : env.writeOk = true) (hr : env.readOk = true) :
    (save_credentials key env email password ts s).1 = true ∧
    load_credentials key env (save_credentials key env email password ts s).2 =
      some ⟨email, password, ts⟩ := by
  simp [save_credentials, load_credentials, hw, hr, decrypt_encrypt]

theorem save_load_roundtrip_witness :
    (save_credentials 7 ⟨true, true, true⟩ "a@b" "pw" 5 ⟨none⟩).1 = true ∧
    load_credentials 7 ⟨true, true, true⟩
      (save_credentials 7 ⟨true, true, true⟩ "a@b" "pw" 5 ⟨none⟩).2 =
      some ⟨"a@b", "pw", 5⟩ :=
  save_load_roundtrip 7 ⟨true, true, true⟩ "a@b" "pw" 5 ⟨none⟩ rfl rfl

/-- C2: whenever `clear_credentials` returns `True`, the credential file is
absent in the resulting state and every subsequent `load_credentials`
returns `None`. -/
theorem clear_then_absent (env : IOEnv) (s : CredState)
    (h : (clear_credentials env s).1 = true) :
    (clear_credentials env s).2.credFile = none ∧
    ∀ (key : Nat) (env2 : IOEnv),
      load_credentials key env2 (clear_credentials env s).2 = none := by
  match hs : s.credFile with
  | some b =>
      by_cases hu : env.unlinkOk = true
      · simp [clear_credentials, hs, hu, load_credentials]
      · simp [clear_credentials, hs, hu] at h
  | none =>
      constructor
      · simp [clear_credentials, hs]
      · intro key env2
        simp [clear_credentials, hs, load_credentials]

theorem clear_then_absent_witness :
    (clear_credentials ⟨true, true, true⟩ ⟨some (Blob.json ⟨"e", "p", 0⟩)⟩).2.credFile
        = none ∧
    ∀ (key : Nat) (env2 : IOEnv),
      load_credentials key env2
        (clear_credentials ⟨true, true, true⟩ ⟨some (Blob.json ⟨"e", "p", 0⟩)⟩).2
        = none :=
  clear_then_absent ⟨true, true, true⟩ ⟨some (Blob.json ⟨"e", "p", 0⟩)⟩ rfl

/-- C3: the store never surfaces an exception: a failed write makes
`save_credentials` return `False` with the state unchanged, a failed unlink
makes `clear_credentials` return `False` with the state unchanged, a failed
read makes `load_credentials` return `None`; and `load_credentials` returns
the same `None` on a missing file as on a blob whose decryption fails, so
the two cases are indistinguishable to the caller. -/
theorem store_errors_are_sentinels (key : Nat) (env : IOEnv)
    (email password : String) (ts : Nat) (s : CredState) (b : Blob)
    (hw : env.writeOk = false) (hu : env.unlinkOk = false)
    (hr : env.readOk = false) (hs : s.credFile = some b)
    (hbad : decrypt_credentials key b = none) :
    save_credentials key env email password ts s = (false, s) ∧
    clear_credentials env s = (false, s) ∧
    load_credentials key env s = none ∧
    ∀ env2 : IOEnv,
      load_credentials key env2 ⟨some b⟩ = load_credentials key env2 ⟨none⟩ := by
  refine ⟨by simp [save_credentials, hw], by simp [clear_credentials, hs, hu],
    by simp [load_credentials, hs, hr], ?_⟩
  intro env2
  by_cases h2 : env2.readOk = true <;>
    simp [load_credentials, h2, hbad]

theorem store_errors_are_sentinels_witness :
    save_credentials 3 ⟨false, false, false⟩ "e" "p" 1 ⟨some (Blob.json ⟨"x", "y", 0⟩)⟩
        = (false, ⟨some (Blob.json ⟨"x", "y", 0⟩)⟩) ∧
    clear_credentials ⟨false, false, false⟩ ⟨some (Blob.json ⟨"x", "y", 0⟩)⟩
        = (false, ⟨some (Blob.json ⟨"x", "y", 0⟩)⟩) ∧
    load_credentials 3 ⟨false, false, false⟩ ⟨some (Blob.json ⟨"x", "y", 0⟩)⟩ = none ∧
    ∀ env2 : IOEnv,
      load_credentials 3 env2 ⟨some (Blob.json ⟨"x", "y", 0⟩)⟩ =
        load_credentials 3 env2 ⟨none⟩ :=
  store_errors_are_sentinels 3 ⟨false, false, false⟩ "e" "p" 1
    ⟨some (Blob.json ⟨"x", "y", 0⟩)⟩ (Blob.json ⟨"x", "y", 0⟩)
    rfl rfl rfl rfl rfl

/-- C8: a successful save writes, as the single file content and regardless
of the previous content, exactly the base64 encoding of the Fernet
encryption of the JSON serialization of `{email, password, timestamp}`; and
`_decrypt_credentials` (base64-decode, decrypt, JSON-parse) inverts
`_encrypt_credentials`. -/
theorem save_blob_shape (key : Nat) (env : IOEnv) (email password : String)
    (ts : Nat) (s : CredState) (hw : env.writeOk = true) :
    (save_credentials key env email password ts s).2.credFile =
      some (Blob.b64 (Blob.enc key (Blob.json ⟨email, password, ts⟩))) ∧
    decrypt_credentials key (encrypt_credentials key ⟨email, password, ts⟩) =
      some ⟨email, password, ts⟩ := by
  constructor
  · simp [save_credentials, hw, encrypt_credentials, b64encode, fernetEncrypt,
      jsonDumps]
  · exact decrypt_encrypt key ⟨email, password, ts⟩

theorem save_blob_shape_witness :
    (save_credentials 2 ⟨true, true, true⟩ "m" "s" 9
        ⟨some (Blob.json ⟨"old", "old", 0⟩)⟩).2.credFile =
      some (Blob.b64 (Blob.enc 2 (Blob.json ⟨"m", "s", 9⟩))) ∧
    decrypt_credentials 2 (encrypt_credentials 2 ⟨"m", "s", 9⟩) =
      some ⟨"m", "s", 9⟩ :=
  save_blob_shape 2 ⟨true, true, true⟩ "m" "s" 9
    ⟨some (Blob.json ⟨"old", "old", 0⟩)⟩ rfl

/-- C9: with both `CHATGPT_EMAIL` and `CHATGPT_PASSWORD` set to non-empty
values, `get_credentials` returns exactly that pair, for every store state
and interactive input, and leaves the store untouched. -/
theorem env_vars_take_precedence (key : Nat) (env : IOEnv) (e p : String)
    (s : CredState) (userEmail userPassword saveChoice : String) (ts : Nat)
    (he : e ≠ "") (hp : p ≠ "") :
    get_credentials key env (some e) (some p) s
        userEmail userPassword saveChoice ts = ((e, p), s) := by
  simp [get_credentials, pyTruthy, he, hp]

theorem env_vars_take_precedence_witness :
    get_credentials 1 ⟨true, true, true⟩ (some "a@b.c") (some "secret")
        ⟨some (Blob.json ⟨"stored", "stored", 0⟩)⟩ "u" "v" "y" 4 =
      (("a@b.c", "secret"), ⟨some (Blob.json ⟨"stored", "stored", 0⟩)⟩) :=
  env_vars_take_precedence 1 ⟨true, true, true⟩ "a@b.c" "secret"
    ⟨some (Blob.json ⟨"stored", "stored", 0⟩)⟩ "u" "v" "y" 4
    (by decide) (by decide)

/-- C6 counterexample: in the concrete trace of `pipeline.main`, the output
of stage 2 (`voice_gen.run`, the audio file) is not among the inputs of
stage 3 (`animation_gen.run`, which consumes the script file), so not every
stage's artifact is consumed by the next stage in the sequence. -/
theorem pipeline_not_consumed_by_next : ¬ consumedByNextStage pipeline_main := by
  decide

/-- C6 (amended): `pipeline.main` is exactly the fixed linear sequence of
five stage calls, with no branching or repetition, and every file artifact a
stage produces is consumed by some later stage (the script by both the voice
and the animation stages; the audio skips the animation stage and is
consumed by the video-edit stage). -/
theorem pipeline_five_linear_stages :
    pipeline_main =
      [ ⟨"script_gen.run", [], some (Artifact.scriptFile "motivation")⟩,
        ⟨"voice_gen.run", [Artifact.scriptFile "motivation"],
          some (Artifact.audioFile (Artifact.scriptFile "motivation"))⟩,
        ⟨"animation_gen.run", [Artifact.scriptFile "motivation"],
          some (Artifact.animVideo (Artifact.scriptFile "motivation"))⟩,
        ⟨"video_edit.run",
          [Artifact.animVideo (Artifact.scriptFile "motivation"),
           Artifact.audioFile (Artifact.scriptFile "motivation")],
          some (Artifact.finalVideo
            (Artifact.animVideo (Artifact.scriptFile "motivation"))
            (Artifact.audioFile (Artifact.scriptFile "motivation")))⟩,
        ⟨"upload_youtube.run",
          [Artifact.finalVideo
            (Artifact.animVideo (Artifact.scriptFile "motivation"))
            (Artifact.audioFile (Artifact.scriptFile "motivation"))], none⟩ ] ∧
    consumedByLaterStage pipeline_main := by
  constructor
  · rfl
  · decide

/-- The loop makes at most as many status requests as its budget (helper). -/
theorem pollFrom_le (resp : Nat → PollResponse) (attempts remaining : Nat) :
    (pollFrom resp attempts remaining).2 ≤ remaining := by
  induction remaining generalizing attempts with
  | zero => simp [pollFrom]
  | succ n ih =>
      simp only [pollFrom]
      by_cases h1 : (resp attempts).ok = false
      · simp [h1]
      · by_cases h2 : (resp attempts).status = some "completed"
        · match hv : (resp attempts).video with
          | some url => simp [h1, h2, hv]
          | none => simp [h1, h2, hv]
        · by_cases h3 : (resp attempts).status = some "failed"
          · simp [h1, h2, h3]
          · have := ih (attempts + 1)
            simp [h1, h2, h3]
            omega

/-- If every response in the window is a successful HTTP reply whose status
is neither `"completed"` nor `"failed"`, the loop exhausts its budget with
`video_url` unset (helper). -/
theorem pollFrom_pending (resp : Nat → PollResponse) (attempts remaining : Nat)
    (h : ∀ i, (resp i).ok = true ∧ (resp i).status ≠ some "completed" ∧
      (resp i).status ≠ some "failed") :
    pollFrom resp attempts remaining = (Except.ok none, remaining) := by
  induction remaining generalizing attempts with
  | zero => simp [pollFrom]
  | succ n ih =>
      obtain ⟨h1, h2, h3⟩ := h attempts
      simp only [pollFrom]
      simp [h1, h2, h3, ih (attempts + 1)]

/-- C7: for every behaviour of the remote job, the poll phase of
`create_video` makes at most 60 status requests (with a 5-second sleep
between attempts), and if the job never reports completion or failure
within the budget the loop stops after exactly 60 requests and reports the
timeout error instead of polling further. -/
theorem poll_loop_bounded (resp : Nat → PollResponse) :
    (create_video_poll resp).2 ≤ pollMaxAttempts ∧
    pollIntervalSeconds = 5 ∧
    ((∀ i, (resp i).ok = true ∧ (resp i).status ≠ some "completed" ∧
        (resp i).status ≠ some "failed") →
      create_video_poll resp =
        (Except.error "Failed to create video: Video generation timed out",
          pollMaxAttempts)) := by
  refine ⟨?_, rfl, ?_⟩
  · have := pollFrom_le resp 0 pollMaxAttempts
    unfold create_video_poll
    match h : (pollFrom resp 0 pollMaxAttempts).1 with
    | Except.ok (some url) => simp [h]; omega
    | Except.ok none => simp [h]; omega
    | Except.error m => simp [h]; omega
  · intro h
    unfold create_video_poll
    rw [pollFrom_pending resp 0 pollMaxAttempts h]

theorem poll_loop_bounded_witness :
    (create_video_poll (fun _ => ⟨true, "", some "pending", none⟩)).2 ≤
        pollMaxAttempts ∧
    pollIntervalSeconds = 5 ∧
    ((∀ i, ((fun (_ : Nat) => (⟨true, "", some "pending", none⟩ : PollResponse)) i).ok = true ∧
        ((fun (_ : Nat) => (⟨true, "", some "pending", none⟩ : PollResponse)) i).status ≠ some "completed" ∧
        ((fun (_ : Nat) => (⟨true, "", some "pending", none⟩ : PollResponse)) i).status ≠ some "failed") →
      create_video_poll (fun _ => ⟨true, "", some "pending", none⟩) =
        (Except.error "Failed to create video: Video generation timed out",
          pollMaxAttempts)) :=
  poll_loop_bounded (fun _ => ⟨true, "", some "pending", none⟩)

/-- C4 counterexample: at a concrete input where the work inside the `try`
of `script_gen.generate_script` fails, the stage function raises a wrapped
`Exception` — the failure propagates out of the CLI stage function instead
of being converted into a boolean/None sentinel return value. -/
theorem stage_failure_propagates :
    generate_script ⟨"sk-key", true, Except.error "boom", "20250101_000000"⟩
        "topic" "medium" "educational" =
      Except.error "Failed to generate script: boom" := rfl

/-- A failed HTTP status check makes the poll loop raise at once (helper). -/
theorem pollFrom_first_error (resp : Nat → PollResponse) (attempts r : Nat)
    (h : (resp attempts).ok = false) :
    pollFrom resp attempts (r + 1) =
      (Except.error ("Failed to check video status: " ++ (resp attempts).text),
        1) := by
  simp [pollFrom, h]

/-- A "failed" job status makes the poll loop raise at once (helper). -/
theorem pollFrom_first_failed (resp : Nat → PollResponse) (attempts r : Nat)
    (hok : (resp attempts).ok = true)
    (hf : (resp attempts).status = some "failed") :
    pollFrom resp attempts (r + 1) =
      (Except.error "Video generation failed", 1) := by
  simp [pollFrom, hok, hf]

/-- C4 (amended): a failing external call is caught by a broad handler, but
the CLI stage functions `generate_script`, `generate_voice` and
`create_video` re-raise it as a wrapped `Exception` with a prefixed
message, which propagates to the caller; `animation_gen.run` returns
`None` only for `TaskFailedError` and lets any other exception propagate;
the API server converts a failure of the stage call into an HTTP 500 whose
detail carries the original message; nothing is retried. -/
theorem stage_failure_behavior :
    (∀ (env : ScriptGenEnv) (topic length style msg : String),
      env.apiKey ≠ "" → env.libAvailable = true →
      env.callResult = Except.error msg →
      generate_script env topic length style =
        Except.error ("Failed to generate script: " ++ msg)) ∧
    (∀ (env : VoiceGenEnv) (text voiceType speed msg : String),
      env.apiKey ≠ "" → env.libAvailable = true →
      env.callResult = Except.error msg →
      generate_voice env text voiceType speed =
        Except.error ("Failed to generate voice: " ++ msg)) ∧
    (∀ resp : Nat → PollResponse, (resp 0).ok = false →
      (create_video_poll resp).1 =
        Except.error ("Failed to create video: " ++
          ("Failed to check video status: " ++ (resp 0).text))) ∧
    (∀ resp : Nat → PollResponse,
      (resp 0).ok = true → (resp 0).status = some "failed" →
      (create_video_poll resp).1 =
        Except.error ("Failed to create video: " ++
          "Video generation failed")) ∧
    (∀ d, animation_run (AnimOutcome.taskFailed d) = Except.ok none) ∧
    (∀ m, animation_run (AnimOutcome.otherExn m) = Except.error m) ∧
    (∀ (ts m : String) (req : ScriptRequest) (fileRead : Except String String),
      pyStrip req.topic ≠ "" →
      renderResult ts
          (generate_script_endpoint req (Except.error (PyExn.exn m)) fileRead) =
        ⟨500, JsonVal.obj
          [("status", JsonVal.str "error"),
           ("message", JsonVal.str ("Failed to generate script: " ++ m)),
           ("timestamp", JsonVal.str ts)]⟩) := by
  refine ⟨?_, ?_, ?_, ?_, fun d => rfl, fun m => rfl, ?_⟩
  · intro env topic length style msg hk hl hc
    simp [generate_script, hk, hl, hc]
  · intro env text voiceType speed msg hk hl hc
    simp [generate_voice, hk, hl, hc]
  · intro resp h
    have h1 := pollFrom_first_error resp 0 59 h
    unfold create_video_poll
    rw [show pollMaxAttempts = 59 + 1 from rfl, h1]
  · intro resp hok hf
    have h1 := pollFrom_first_failed resp 0 59 hok hf
    unfold create_video_poll
    rw [show pollMaxAttempts = 59 + 1 from rfl, h1]
  · intro ts m req fileRead h
    simp [generate_script_endpoint, generate_script_body, renderResult,
      http_exception_handler, strExn, h]

theorem stage_failure_behavior_witness :
    generate_script ⟨"sk", true, Except.error "x", "t0"⟩ "t" "medium" "casual" =
      Except.error ("Failed to generate script: " ++ "x") ∧
    generate_voice ⟨"el", true, Except.error "y", "t0"⟩ "hello" "female" "normal" =
      Except.error ("Failed to generate voice: " ++ "y") ∧
    (create_video_poll (fun _ => ⟨false, "503 Service Unavailable", none, none⟩)).1 =
      Except.error ("Failed to create video: " ++
        ("Failed to check video status: " ++ "503 Service Unavailable")) ∧
    (create_video_poll (fun _ => ⟨true, "", some "failed", none⟩)).1 =
      Except.error ("Failed to create video: " ++ "Video generation failed") ∧
    animation_run (AnimOutcome.taskFailed "details") = Except.ok none ∧
    animation_run (AnimOutcome.otherExn "netfail") = Except.error "netfail" ∧
    renderResult "T"
        (generate_script_endpoint ⟨"t", "medium", "casual"⟩
          (Except.error (PyExn.exn "down")) (Except.ok "c")) =
      ⟨500, JsonVal.obj
        [("status", JsonVal.str "error"),
         ("message", JsonVal.str ("Failed to generate script: " ++ "down")),
         ("timestamp", JsonVal.str "T")]⟩ :=
  ⟨stage_failure_behavior.1 ⟨"sk", true, Except.error "x", "t0"⟩ "t" "medium"
      "casual" "x" (by decide) rfl rfl,
   stage_failure_behavior.2.1 ⟨"el", true, Except.error "y", "t0"⟩ "hello"
      "female" "normal" "y" (by decide) rfl rfl,
   stage_failure_behavior.2.2.1
      (fun _ => ⟨false, "503 Service Unavailable", none, none⟩) rfl,
   stage_failure_behavior.2.2.2.1
      (fun _ => ⟨true, "", some "failed", none⟩) rfl rfl,
   stage_failure_behavior.2.2.2.2.1 "details",
   stage_failure_behavior.2.2.2.2.2.1 "netfail",
   stage_failure_behavior.2.2.2.2.2.2 "T" "down" ⟨"t", "medium", "casual"⟩
      (Except.ok "c") (by decide)⟩

/-- `dropWhile isWhitespace` keeps a run of `'a'`s intact (helper). -/
theorem dropWhile_replicate_a (k : Nat) :
    (List.replicate k 'a').dropWhile Char.isWhitespace = List.replicate k 'a' := by
  cases k with
  | zero => rfl
  | succ n =>
      rw [List.replicate_succ, List.dropWhile_cons]
      have h : Char.isWhitespace 'a' = false := by decide
      simp [h]

/-- Stripping a run of `'a'`s changes nothing (helper). -/
theorem pyStrip_replicate (k : Nat) :
    pyStrip (String.mk (List.replicate k 'a')) =
      String.mk (List.replicate k 'a') := by
  simp [pyStrip, dropWhile_replicate_a, List.reverse_replicate]

/-- A non-empty run of `'a'`s is not the empty string (helper). -/
theorem replicate_mk_ne_empty (k : Nat) (hk : 0 < k) :
    String.mk (List.replicate k 'a') ≠ "" := by
  intro h
  have h2 : (String.mk (List.replicate k 'a')).data = ("" : String).data := by
    rw [h]
  have h0 : (("" : String)).data = [] := rfl
  rw [h0] at h2
  have h3 := congrArg List.length h2
  simp at h3
  omega

/-- The length of a run of `'a'`s (helper). -/
theorem length_replicate_mk (k : Nat) :
    (String.mk (List.replicate k 'a')).length = k := by
  simp [String.length]

/-- Stripping `longText` changes nothing (helper). -/
theorem pyStrip_longText : pyStrip longText = longText := by
  unfold longText
  exact pyStrip_replicate 5001

/-- `longText` is not blank after stripping (helper). -/
theorem longText_not_blank : ¬ pyStrip longText = "" := by
  rw [pyStrip_longText]
  unfold longText
  exact replicate_mk_ne_empty 5001 (by omega)

/-- `longText` is over the limit (helper). -/
theorem longText_length : 5000 < longText.length := by
  unfold longText
  rw [length_replicate_mk]
  omega

/-- C5 counterexample: the `/generate_script/` endpoint on an
all-whitespace (hence empty after strip) topic produces an error response
whose envelope has the fields `{status, message, timestamp}`, not the
claimed uniform `{status, message, data}` shape. -/
theorem envelope_shape_counterexample :
    jsonFieldNames (renderResult "T"
        (generate_script_endpoint ⟨" ", "medium", "educational"⟩
          (Except.ok "f.txt") (Except.ok "c"))).content =
      ["status", "message", "timestamp"] ∧
    ¬ jsonFieldNames (renderResult "T"
        (generate_script_endpoint ⟨" ", "medium", "educational"⟩
          (Except.ok "f.txt") (Except.ok "c"))).content =
      ["status", "message", "data"] := by
  constructor
  · rfl
  · decide

/-- C5 (amended): every successful handler response is a 200 with the
uniform `{status, message, data}` envelope, while invalid input (empty
topic, oversized text, disallowed file extension) uniformly yields a 500
whose envelope is the `HTTPException` handler's `{status, message,
timestamp}` shape. -/
theorem envelope_shapes (ts : String) :
    (∀ r : APIResponse,
      (renderResult ts (Except.ok r)).statusCode = 200 ∧
      jsonFieldNames (renderResult ts (Except.ok r)).content =
        ["status", "message", "data"]) ∧
    (∀ (req : ScriptRequest) (gen : Except PyExn String)
        (fileRead : Except String String), pyStrip req.topic = "" →
      (renderResult ts (generate_script_endpoint req gen fileRead)).statusCode
          = 500 ∧
      jsonFieldNames
          (renderResult ts (generate_script_endpoint req gen fileRead)).content =
        ["status", "message", "timestamp"]) ∧
    (∀ (req : VoiceRequest) (gen : Except PyExn String),
      pyStrip req.text ≠ "" → 5000 < req.text.length →
      (renderResult ts (generate_voice_endpoint req gen)).statusCode = 500 ∧
      jsonFieldNames
          (renderResult ts (generate_voice_endpoint req gen)).content =
        ["status", "message", "timestamp"]) ∧
    (∀ (filename sizeStr : String) (gen : Except PyExn String),
      filename ≠ "" → pathSuffixLower filename ≠ ".txt" →
      pathSuffixLower filename ≠ ".md" →
      (renderResult ts (create_video_endpoint filename gen sizeStr)).statusCode
          = 500 ∧
      jsonFieldNames
          (renderResult ts (create_video_endpoint filename gen sizeStr)).content
          = ["status", "message", "timestamp"]) ∧
    (∀ (filename : String) (saved : Except PyExn String),
      filename ≠ "" → pathSuffixLower filename ≠ ".txt" →
      pathSuffixLower filename ≠ ".md" →
      (renderResult ts (upload_script_endpoint filename saved)).statusCode
          = 500 ∧
      jsonFieldNames
          (renderResult ts (upload_script_endpoint filename saved)).content =
        ["status", "message", "timestamp"]) := by
  refine ⟨?_, ?_, ?_, ?_, ?_⟩
  · intro r
    exact ⟨rfl, rfl⟩
  · intro req gen fileRead h
    simp [generate_script_endpoint, generate_script_body, renderResult,
      http_exception_handler, jsonFieldNames, h]
  · intro req gen h1 h2
    have h2b : ¬ req.text.length ≤ 5000 := by omega
    simp [generate_voice_endpoint, generate_voice_body, renderResult,
      http_exception_handler, jsonFieldNames, h1, h2, h2b]
  · intro filename sizeStr gen h1 h2 h3
    simp [create_video_endpoint, create_video_body, validateUploadFilename,
      renderResult, http_exception_handler, jsonFieldNames, h1, h2, h3]
  · intro filename saved h1 h2 h3
    simp [upload_script_endpoint, upload_script_body, validateUploadFilename,
      renderResult, http_exception_handler, jsonFieldNames, h1, h2, h3]

theorem envelope_shapes_witness :
    ((renderResult "T" (Except.ok ⟨"success", "ok", none⟩)).statusCode = 200 ∧
      jsonFieldNames (renderResult "T"
          (Except.ok ⟨"success", "ok", none⟩)).content =
        ["status", "message", "data"]) ∧
    ((renderResult "T" (generate_script_endpoint ⟨"", "medium", "educational"⟩
          (Except.ok "f") (Except.ok "c"))).statusCode = 500 ∧
      jsonFieldNames (renderResult "T"
          (generate_script_endpoint ⟨"", "medium", "educational"⟩
            (Except.ok "f") (Except.ok "c"))).content =
        ["status", "message", "timestamp"]) ∧
    ((renderResult "T" (generate_voice_endpoint
          ⟨longText, "female", "normal"⟩
          (Except.ok "v"))).statusCode = 500 ∧
      jsonFieldNames (renderResult "T" (generate_voice_endpoint
          ⟨longText, "female", "normal"⟩
          (Except.ok "v"))).content =
        ["status", "message", "timestamp"]) ∧
    ((renderResult "T" (create_video_endpoint "evil.pdf" (Except.ok "v")
          "1.0 MB")).statusCode = 500 ∧
      jsonFieldNames (renderResult "T" (create_video_endpoint "evil.pdf"
          (Except.ok "v") "1.0 MB")).content =
        ["status", "message", "timestamp"]) ∧
    ((renderResult "T" (upload_script_endpoint "evil.pdf"
          (Except.ok "u"))).statusCode = 500 ∧
      jsonFieldNames (renderResult "T" (upload_script_endpoint "evil.pdf"
          (Except.ok "u"))).content =
        ["status", "message", "timestamp"]) :=
  ⟨(envelope_shapes "T").1 ⟨"success", "ok", none⟩,
   (envelope_shapes "T").2.1 ⟨"", "medium", "educational"⟩
      (Except.ok "f") (Except.ok "c") rfl,
   (envelope_shapes "T").2.2.1
      ⟨longText, "female", "normal"⟩
      (Except.ok "v") longText_not_blank longText_length,
   (envelope_shapes "T").2.2.2.1 "evil.pdf" "1.0 MB" (Except.ok "v")
      (by decide) (by decide) (by decide),
   (envelope_shapes "T").2.2.2.2 "evil.pdf" (Except.ok "u")
      (by decide) (by decide) (by decide)⟩

/-- C10: a validation failure inside a handler body — empty topic, empty or
oversized text, missing file (empty filename), disallowed extension —
raises `HTTPException(400)`, which the handler's own `except Exception`
catches and re-raises as `HTTPException(500)` whose detail embeds the
original validation message (via `str(e) = "400: …"`), so the client sees
status 500, not 400. -/
theorem validation_maps_to_500 (ts : String) :
    (∀ (req : ScriptRequest) (gen : Except PyExn String)
        (fileRead : Except String String), pyStrip req.topic = "" →
      renderResult ts (generate_script_endpoint req gen fileRead) =
        ⟨500, JsonVal.obj
          [("status", JsonVal.str "error"),
           ("message", JsonVal.str
             "Failed to generate script: 400: Topic cannot be empty"),
           ("timestamp", JsonVal.str ts)]⟩) ∧
    (∀ (req : VoiceRequest) (gen : Except PyExn String),
      pyStrip req.text = "" →
      renderResult ts (generate_voice_endpoint req gen) =
        ⟨500, JsonVal.obj
          [("status", JsonVal.str "error"),
           ("message", JsonVal.str
             "Failed to generate voice: 400: Text cannot be empty"),
           ("timestamp", JsonVal.str ts)]⟩) ∧
    (∀ (req : VoiceRequest) (gen : Except PyExn String),
      pyStrip req.text ≠ "" → 5000 < req.text.length →
      renderResult ts (generate_voice_endpoint req gen) =
        ⟨500, JsonVal.obj
          [("status", JsonVal.str "error"),
           ("message", JsonVal.str
             "Failed to generate voice: 400: Text too long (max 5000 characters)"),
           ("timestamp", JsonVal.str ts)]⟩) ∧
    (∀ (filename sizeStr : String) (gen : Except PyExn String),
      filename ≠ "" → pathSuffixLower filename ≠ ".txt" →
      pathSuffixLower filename ≠ ".md" →
      renderResult ts (create_video_endpoint filename gen sizeStr) =
        ⟨500, JsonVal.obj
          [("status", JsonVal.str "error"),
           ("message", JsonVal.str
             "Failed to create video: 400: Invalid file type. Allowed: .txt, .md"),
           ("timestamp", JsonVal.str ts)]⟩) ∧
    (∀ (filename : String) (saved : Except PyExn String),
      filename ≠ "" → pathSuffixLower filename ≠ ".txt" →
      pathSuffixLower filename ≠ ".md" →
      renderResult ts (upload_script_endpoint filename saved) =
        ⟨500, JsonVal.obj
          [("status", JsonVal.str "error"),
           ("message", JsonVal.str
             "Failed to upload script: 400: Invalid file type. Allowed: .txt, .md"),
           ("timestamp", JsonVal.str ts)]⟩) ∧
    (∀ (sizeStr : String) (gen : Except PyExn String),
      renderResult ts (create_video_endpoint "" gen sizeStr) =
        ⟨500, JsonVal.obj
          [("status", JsonVal.str "error"),
           ("message", JsonVal.str
             "Failed to create video: 400: No file provided"),
           ("timestamp", JsonVal.str ts)]⟩) ∧
    (∀ saved : Except PyExn String,
      renderResult ts (upload_script_endpoint "" saved) =
        ⟨500, JsonVal.obj
          [("status", JsonVal.str "error"),
           ("message", JsonVal.str
             "Failed to upload script: 400: No file provided"),
           ("timestamp", JsonVal.str ts)]⟩) := by
  refine ⟨?_, ?_, ?_, ?_, ?_, ?_, ?_⟩
  · intro req gen fileRead h
    simp [generate_script_endpoint, generate_script_body, renderResult,
      http_exception_handler, strExn, h]
    rfl
  · intro req gen h
    simp [generate_voice_endpoint, generate_voice_body, renderResult,
      http_exception_handler, strExn, h]
    rfl
  · intro req gen h1 h2
    have h2b : ¬ req.text.length ≤ 5000 := by omega
    simp [generate_voice_endpoint, generate_voice_body, renderResult,
      http_exception_handler, strExn, h1, h2, h2b]
    rfl
  · intro filename sizeStr gen h1 h2 h3
    simp [create_video_endpoint, create_video_body, validateUploadFilename,
      renderResult, http_exception_handler, strExn, h1, h2, h3]
    rfl
  · intro filename saved h1 h2 h3
    simp [upload_script_endpoint, upload_script_body, validateUploadFilename,
      renderResult, http_exception_handler, strExn, h1, h2, h3]
    rfl
  · intro sizeStr gen
    simp [create_video_endpoint, create_video_body, validateUploadFilename,
      renderResult, http_exception_handler, strExn]
    rfl
  · intro saved
    simp [upload_script_endpoint, upload_script_body, validateUploadFilename,
      renderResult, http_exception_handler, strExn]
    rfl

theorem validation_maps_to_500_witness :
    renderResult "T" (generate_script_endpoint ⟨"  ", "medium", "educational"⟩
        (Except.ok "f") (Except.ok "c")) =
      ⟨500, JsonVal.obj
        [("status", JsonVal.str "error"),
         ("message", JsonVal.str
           "Failed to generate script: 400: Topic cannot be empty"),
         ("timestamp", JsonVal.str "T")]⟩ ∧
    renderResult "T" (generate_voice_endpoint ⟨"", "female", "normal"⟩
        (Except.ok "v")) =
      ⟨500, JsonVal.obj
        [("status", JsonVal.str "error"),
         ("message", JsonVal.str
           "Failed to generate voice: 400: Text cannot be empty"),
         ("timestamp", JsonVal.str "T")]⟩ ∧
    renderResult "T" (generate_voice_endpoint
        ⟨longText, "female", "normal"⟩
        (Except.ok "v")) =
      ⟨500, JsonVal.obj
        [("status", JsonVal.str "error"),
         ("message", JsonVal.str
           "Failed to generate voice: 400: Text too long (max 5000 characters)"),
         ("timestamp", JsonVal.str "T")]⟩ ∧
    renderResult "T" (create_video_endpoint "evil.exe" (Except.ok "v") "1.0 MB") =
      ⟨500, JsonVal.obj
        [("status", JsonVal.str "error"),
         ("message", JsonVal.str
           "Failed to create video: 400: Invalid file type. Allowed: .txt, .md"),
         ("timestamp", JsonVal.str "T")]⟩ ∧
    renderResult "T" (upload_script_endpoint "evil.exe" (Except.ok "u")) =
      ⟨500, JsonVal.obj
        [("status", JsonVal.str "error"),
         ("message", JsonVal.str
           "Failed to upload script: 400: Invalid file type. Allowed: .txt, .md"),
         ("timestamp", JsonVal.str "T")]⟩ ∧
    renderResult "T" (create_video_endpoint "" (Except.ok "v") "1.0 MB") =
      ⟨500, JsonVal.obj
        [("status", JsonVal.str "error"),
         ("message", JsonVal.str "Failed to create video: 400: No file provided"),
         ("timestamp", JsonVal.str "T")]⟩ ∧
    renderResult "T" (upload_script_endpoint "" (Except.ok "u")) =
      ⟨500, JsonVal.obj
        [("status", JsonVal.str "error"),
         ("message", JsonVal.str "Failed to upload script: 400: No file provided"),
         ("timestamp", JsonVal.str "T")]⟩ :=
  ⟨(validation_maps_to_500 "T").1 ⟨"  ", "medium", "educational"⟩
      (Except.ok "f") (Except.ok "c") rfl,
   (validation_maps_to_500 "T").2.1 ⟨"", "female", "normal"⟩
      (Except.ok "v") rfl,
   (validation_maps_to_500 "T").2.2.1
      ⟨longText, "female", "normal"⟩
      (Except.ok "v") longText_not_blank longText_length,
   (validation_maps_to_500 "T").2.2.2.1 "evil.exe" "1.0 MB" (Except.ok "v")
      (by decide) (by decide) (by decide),
   (validation_maps_to_500 "T").2.2.2.2.1 "evil.exe" (Except.ok "u")
      (by decide) (by decide) (by decide),
   (validation_maps_to_500 "T").2.2.2.2.2.1 "1.0 MB" (Except.ok "v"),
   (validation_maps_to_500 "T").2.2.2.2.2.2 (Except.ok "u")⟩